import Mathlib

/-!
Verification of the `dockercomposemgr` FastAPI template
(`src/templates/fastapi/app/main.py`).

The application source constructs a `FastAPI` application with static
metadata, registers a permissive CORS middleware, and binds two GET
endpoints (`/` and `/health`) whose handlers return constant payloads.

The handlers, the metadata and the middleware configuration are
translated directly from `main.py`.  The surrounding framework
behaviour (routing, default 404/405 responses, CORS preflight handling
and header injection, JSON serialisation) lives in the FastAPI/Starlette
library, whose code is not part of this repository; those parts are
modelled from the specification's description of the framework defaults
and are marked `Modelled from the spec:` in their doc comments.
-/

/-- HTTP request methods relevant to the service. -/
inductive Method where
  | GET
  | POST
  | PUT
  | DELETE
  | PATCH
  | OPTIONS
  | HEAD
  deriving DecidableEq, Repr

/-- An inbound HTTP request: method, path, headers, query parameters and body. -/
structure Request where
  method : Method
  path : String
  headers : List (String × String)
  queryParams : List (String × String)
  body : String
  deriving DecidableEq, Repr

/-- An HTTP response: status code, headers and serialised body. -/
structure Response where
  status : Nat
  headers : List (String × String)
  body : String
  deriving DecidableEq, Repr

/-- Escape one character for inclusion in a JSON string literal
(only quote and backslash need escaping in this application's payloads). -/
def jsonEscapeChar (c : Char) : List Char :=
  if c = '"' then ['\\', '"']
  else if c = '\\' then ['\\', '\\']
  else [c]

/-- Escape a string for inclusion in a JSON string literal. -/
def jsonEscape (s : String) : String :=
  String.mk ((s.data.map jsonEscapeChar).flatten)

/-- Modelled from the spec: JSON serialisation of a flat string-valued
mapping, as the framework serialises handler return values
(the spec displays bodies as `\x7b"key": "value"\x7d`). -/
def jsonObj (kvs : List (String × String)) : String :=
  ("\x7b") ++
    String.intercalate (", ")
      (kvs.map (fun kv => ("\"") ++ jsonEscape kv.1 ++ ("\": \"") ++ jsonEscape kv.2 ++ ("\"")))
    ++ ("\x7d")

/-- The CORS middleware configuration record
(fields as passed to `app.add_middleware(CORSMiddleware, ...)` in `main.py`). -/
structure CORSConfig where
  allow_origins : List String
  allow_credentials : Bool
  allow_methods : List String
  allow_headers : List String
  deriving DecidableEq, Repr

/-- A registered route: its HTTP method, path, and the (constant) payload
its handler returns. -/
structure Route where
  method : Method
  path : String
  handler : List (String × String)
  deriving DecidableEq, Repr

/-- The application object: metadata, registered middlewares and routes. -/
structure FastAPIApp where
  title : String
  description : String
  version : String
  middlewares : List CORSConfig
  routes : List Route
  deriving DecidableEq, Repr

/-- `FastAPI(title=..., description=..., version=...)`: constructs the
application with the given metadata and no middlewares or routes. -/
def FastAPI (title description version : String) : FastAPIApp :=
  { title := title
    description := description
    version := version
    middlewares := []
    routes := [] }

/-- `app.add_middleware(CORSMiddleware, ...)`: registers a CORS middleware. -/
def FastAPIApp.add_middleware (a : FastAPIApp) (cfg : CORSConfig) : FastAPIApp :=
  { a with middlewares := cfg :: a.middlewares }

/-- `@app.get(path)` applied to a handler returning `payload`:
registers a GET route for `path`. -/
def FastAPIApp.get (a : FastAPIApp) (path : String) (payload : List (String × String)) : FastAPIApp :=
  { a with routes := a.routes ++ [{ method := Method.GET, path := path, handler := payload }] }

/-- The CORS configuration passed in `main.py`:
`allow_origins=["*"], allow_credentials=True, allow_methods=["*"], allow_headers=["*"]`. -/
def corsConfig : CORSConfig :=
  { allow_origins := [("*")]
    allow_credentials := true
    allow_methods := [("*")]
    allow_headers := [("*")] }

/-- The payload returned by the `root` handler in `main.py`:
`return ("message": "Welcome to FastAPI Application")` as a one-key mapping. -/
def root : List (String × String) :=
  [("message", "Welcome to FastAPI Application")]

/-- The payload returned by the `health_check` handler in `main.py`:
`return ("status": "healthy")` as a one-key mapping. -/
def health_check : List (String × String) :=
  [("status", "healthy")]

/-- The application as constructed in `main.py`: metadata, the CORS
middleware, and the two GET routes registered by the decorators. -/
def app : FastAPIApp :=
  (((FastAPI ("FastAPI Application")
      ("A modern FastAPI application with PostgreSQL")
      ("1.0.0")).add_middleware corsConfig).get ("/") root).get ("/health") health_check

/-- Modelled from the spec: the `Access-Control-Allow-*` headers the CORS
middleware injects on responses ("inject the corresponding
`Access-Control-Allow-*` response headers on all responses"). -/
def corsSimpleHeaders (cfg : CORSConfig) : List (String × String) :=
  [("Access-Control-Allow-Origin", String.intercalate (", ") cfg.allow_origins)] ++
    (if cfg.allow_credentials then [("Access-Control-Allow-Credentials", "true")] else [])

/-- Modelled from the spec: the CORS preflight response to an `OPTIONS`
request ("the service must respond to preflight (OPTIONS) requests";
table row: `Access-Control-Allow-Origin: *`, `-Credentials: true`,
`-Methods: *`, `-Headers: *`). -/
def preflightResponse (cfg : CORSConfig) : Response :=
  { status := 200
    headers := corsSimpleHeaders cfg ++
      [("Access-Control-Allow-Methods", String.intercalate (", ") cfg.allow_methods),
       ("Access-Control-Allow-Headers", String.intercalate (", ") cfg.allow_headers)]
    body := "OK" }

/-- Modelled from the spec: framework default routing, absent from this
repository ("404 Not Found for unmatched routes"; "any non-GET method on
these two paths yields a method not allowed response").  A route whose
path and method both match yields 200 with the handler payload
serialised as JSON; a path match with no method match yields 405; no
path match yields 404. -/
def routerDispatch (rs : List Route) (req : Request) : Response :=
  match rs.find? (fun r => decide (r.path = req.path) && decide (r.method = req.method)) with
  | some r =>
      { status := 200
        headers := [("content-type", "application/json")]
        body := jsonObj r.handler }
  | none =>
      if rs.any (fun r => decide (r.path = req.path)) then
        { status := 405, headers := [], body := jsonObj [("detail", "Method Not Allowed")] }
      else
        { status := 404, headers := [], body := jsonObj [("detail", "Not Found")] }

/-- Modelled from the spec: the CORS middleware "is applied to every
inbound request before routing": it answers `OPTIONS` requests with the
preflight response without consulting the routes, and injects the
`Access-Control-Allow-*` headers on every other response. -/
def corsApply (cfg : CORSConfig) (inner : Request → Response) (req : Request) : Response :=
  if req.method = Method.OPTIONS then
    preflightResponse cfg
  else
    let r := inner req
    { r with headers := r.headers ++ corsSimpleHeaders cfg }

/-- Request handling for a given application: each registered middleware
wraps the router. -/
def handleApp (a : FastAPIApp) : Request → Response :=
  a.middlewares.foldr (fun cfg inner => corsApply cfg inner) (routerDispatch a.routes)

/-- Request handling for the application constructed in `main.py`. -/
def handle (req : Request) : Response :=
  handleApp app req

/-- Stateful view of request handling: the process-wide application state
is threaded through the handler.  The handlers in `main.py` are pure, so
the state is returned unchanged. -/
def handleWithState (a : FastAPIApp) (req : Request) : Response × FastAPIApp :=
  (handleApp a req, a)

/-- The response depends only on the request's method and path: headers,
query parameters and body are never consulted. -/
theorem handle_core (req : Request) :
    handle req = handle { method := req.method, path := req.path, headers := [], queryParams := [], body := "" } := by
  cases req
  rfl

/-- Claim C1: every request with method GET and path `/` receives
HTTP 200 with exact JSON body `\x7b"message": "Welcome to FastAPI Application"\x7d`,
regardless of headers, query parameters, or body. -/
theorem c1_get_root (req : Request) (hm : req.method = Method.GET) (hp : req.path = "/") :
    (handle req).status = 200 ∧
      (handle req).body = ("\x7b\"message\": \"Welcome to FastAPI Application\"\x7d") := by
  rw [handle_core req, hm, hp]
  exact ⟨rfl, by decide⟩

/-- Witness for C1: the concrete request `GET /` satisfies the hypotheses
and receives the claimed response. -/
theorem c1_get_root_witness :
    (handle { method := Method.GET, path := "/", headers := [("x-test", "1")], queryParams := [("q", "2")], body := "b" }).status = 200 ∧
      (handle { method := Method.GET, path := "/", headers := [("x-test", "1")], queryParams := [("q", "2")], body := "b" }).body
        = ("\x7b\"message\": \"Welcome to FastAPI Application\"\x7d") :=
  c1_get_root _ rfl rfl

/-- Claim C2: every request with method GET and path `/health` receives
HTTP 200 with exact JSON body `\x7b"status": "healthy"\x7d`. -/
theorem c2_get_health (req : Request) (hm : req.method = Method.GET) (hp : req.path = "/health") :
    (handle req).status = 200 ∧
      (handle req).body = ("\x7b\"status\": \"healthy\"\x7d") := by
  rw [handle_core req, hm, hp]
  exact ⟨rfl, by decide⟩

/-- Witness for C2: the concrete request `GET /health` satisfies the
hypotheses and receives the claimed response. -/
theorem c2_get_health_witness :
    (handle { method := Method.GET, path := "/health", headers := [], queryParams := [], body := "" }).status = 200 ∧
      (handle { method := Method.GET, path := "/health", headers := [], queryParams := [], body := "" }).body
        = ("\x7b\"status\": \"healthy\"\x7d") :=
  c2_get_health _ rfl rfl

/-- An `OPTIONS` request to any path, with any headers, query parameters and
body, is answered by the CORS preflight response. -/
theorem handle_options (p : String) (h q : List (String × String)) (b : String) :
    handle { method := Method.OPTIONS, path := p, headers := h, queryParams := q, body := b } =
      preflightResponse corsConfig := rfl

/-- A request whose method is not `OPTIONS` is routed, and the CORS headers
are appended to the router's response headers. -/
theorem handle_not_options (req : Request) (hm : ¬ req.method = Method.OPTIONS) :
    handle req =
      { routerDispatch app.routes req with
        headers := (routerDispatch app.routes req).headers ++ corsSimpleHeaders corsConfig } := by
  have h0 : handle req = corsApply corsConfig (routerDispatch app.routes) req := rfl
  rw [h0]
  unfold corsApply
  rw [if_neg hm]

/-- The routes registered by the two decorators in `main.py`. -/
theorem app_routes_eq :
    app.routes = [{ method := Method.GET, path := "/", handler := root },
      { method := Method.GET, path := "/health", handler := health_check }] := rfl

/-- Claim C3: every OPTIONS request, to any path, receives a CORS preflight
response carrying `Access-Control-Allow-Origin: *` and
`Access-Control-Allow-Credentials: true`. -/
theorem c3_options_preflight (req : Request) (hm : req.method = Method.OPTIONS) :
    ("Access-Control-Allow-Origin", "*") ∈ (handle req).headers ∧
      ("Access-Control-Allow-Credentials", "true") ∈ (handle req).headers := by
  rw [handle_core req, hm, handle_options]
  exact ⟨by decide, by decide⟩

/-- Witness for C3: a concrete OPTIONS request to an arbitrary path carries
both CORS headers. -/
theorem c3_options_preflight_witness :
    ("Access-Control-Allow-Origin", "*") ∈
        (handle { method := Method.OPTIONS, path := "/anything", headers := [], queryParams := [], body := "" }).headers ∧
      ("Access-Control-Allow-Credentials", "true") ∈
        (handle { method := Method.OPTIONS, path := "/anything", headers := [], queryParams := [], body := "" }).headers :=
  c3_options_preflight _ rfl

/-- Claim C4: the application registers exactly one cross-origin middleware,
configured with `allow_origins=["*"]`, `allow_credentials=true`,
`allow_methods=["*"]`, `allow_headers=["*"]`; it is applied to every inbound
request before routing: OPTIONS requests are answered by the preflight
response without consulting the routes, and every response carries the
`Access-Control-Allow-Origin` header. -/
theorem c4_cors_middleware :
    app.middlewares = [corsConfig] ∧
      corsConfig.allow_origins = [("*")] ∧
      corsConfig.allow_credentials = true ∧
      corsConfig.allow_methods = [("*")] ∧
      corsConfig.allow_headers = [("*")] ∧
      (∀ p h q b, handle { method := Method.OPTIONS, path := p, headers := h, queryParams := q, body := b } =
        preflightResponse corsConfig) ∧
      (∀ req : Request, ("Access-Control-Allow-Origin", "*") ∈ (handle req).headers) := by
  refine ⟨rfl, rfl, rfl, rfl, rfl, fun p h q b => rfl, fun req => ?_⟩
  by_cases hm : req.method = Method.OPTIONS
  · rw [handle_core req, hm, handle_options]
    decide
  · rw [handle_not_options req hm]
    exact List.mem_append.mpr (Or.inr (by decide))

/-- Claim C5 (amended): every request whose method is not OPTIONS and whose
path is neither `/` nor `/health` receives HTTP 404; in particular
`GET /nonexistent` returns 404 (witness). -/
theorem c5_unknown_path_404 (req : Request) (hm : ¬ req.method = Method.OPTIONS)
    (h1 : ¬ req.path = "/") (h2 : ¬ req.path = "/health") :
    (handle req).status = 404 := by
  rw [handle_not_options req hm]
  show (routerDispatch app.routes req).status = 404
  rw [app_routes_eq]
  have e1 : decide ("/" = req.path) = false := decide_eq_false fun e => h1 e.symm
  have e2 : decide ("/health" = req.path) = false := decide_eq_false fun e => h2 e.symm
  unfold routerDispatch
  simp [List.find?, List.any, e1, e2]

/-- Witness for C5 (amended): the concrete request `GET /nonexistent`
receives HTTP 404. -/
theorem c5_unknown_path_404_witness :
    (handle { method := Method.GET, path := "/nonexistent", headers := [], queryParams := [], body := "" }).status = 404 :=
  c5_unknown_path_404 _ (by decide) (by decide) (by decide)

/-- Counterexample to claim C5 as stated: `OPTIONS /nonexistent` has a path
that is neither `/` nor `/health`, yet it is answered by the CORS preflight
response with status 200, not 404. -/
theorem c5_counterexample :
    (handle { method := Method.OPTIONS, path := "/nonexistent", headers := [], queryParams := [], body := "" }).status = 200 ∧
      ¬ (handle { method := Method.OPTIONS, path := "/nonexistent", headers := [], queryParams := [], body := "" }).status = 404 := by
  decide

/-- Claim C6 (amended): every request to `/` or `/health` whose method is
neither GET nor OPTIONS receives HTTP 405; in particular `POST /` returns
405 (witness). -/
theorem c6_wrong_method_405 (req : Request)
    (hp : req.path = "/" ∨ req.path = "/health")
    (hg : ¬ req.method = Method.GET) (ho : ¬ req.method = Method.OPTIONS) :
    (handle req).status = 405 := by
  rw [handle_core req]
  rcases hp with hp | hp <;> rw [hp] <;>
    cases hmm : req.method <;> first
      | exact absurd hmm hg
      | exact absurd hmm ho
      | decide

/-- Witness for C6 (amended): the concrete request `POST /` receives
HTTP 405. -/
theorem c6_wrong_method_405_witness :
    (handle { method := Method.POST, path := "/", headers := [], queryParams := [], body := "" }).status = 405 :=
  c6_wrong_method_405 _ (Or.inl rfl) (by decide) (by decide)

/-- Counterexample to claim C6 as stated: `OPTIONS /` is a non-GET method on
`/`, yet it is answered by the CORS preflight response with status 200, not
a method-not-allowed response. -/
theorem c6_counterexample :
    (handle { method := Method.OPTIONS, path := "/", headers := [], queryParams := [], body := "" }).status = 200 ∧
      ¬ (handle { method := Method.OPTIONS, path := "/", headers := [], queryParams := [], body := "" }).status = 405 := by
  decide

/-- Claim C7: request handling is deterministic and the response does not
depend on headers, query parameters or the request body: any two requests
that agree on method and path receive identical responses, hence repeated
identical requests yield byte-identical bodies. -/
theorem c7_deterministic (r1 r2 : Request)
    (hm : r1.method = r2.method) (hp : r1.path = r2.path) :
    handle r1 = handle r2 := by
  rw [handle_core r1, handle_core r2, hm, hp]

/-- Witness for C7: two concrete `GET /` requests differing in headers,
query parameters and body receive identical responses. -/
theorem c7_deterministic_witness :
    handle { method := Method.GET, path := "/", headers := [("a", "1")], queryParams := [], body := "x" } =
      handle { method := Method.GET, path := "/", headers := [], queryParams := [("b", "2")], body := "" } :=
  c7_deterministic _ _ rfl rfl

/-- Claim C8: the application is constructed with exactly the static
metadata `title="FastAPI Application"`, `description="A modern FastAPI
application with PostgreSQL"`, `version="1.0.0"`; `app` is a total
definition, so the construction cannot fail. -/
theorem c8_metadata :
    app.title = "FastAPI Application" ∧
      app.description = "A modern FastAPI application with PostgreSQL" ∧
      app.version = "1.0.0" :=
  ⟨rfl, rfl, rfl⟩

/-- Claim C9: no request handler mutates process-wide state: the application
state is identical before and after every handled request, and the response
is the pure function `handleApp` of the state and the request (constructed
per request, with no cache consulted). -/
theorem c9_no_mutation :
    ∀ (a : FastAPIApp) (req : Request),
      (handleWithState a req).2 = a ∧ (handleWithState a req).1 = handleApp a req :=
  fun _ _ => ⟨rfl, rfl⟩

/-- Claim C10 (amended): a HEAD request to `/` or `/health` is rejected with
HTTP 405 like every other non-GET method: the router modelled from the spec
registers only GET routes and performs no automatic HEAD handling. -/
theorem c10_head_405 (req : Request) (hm : req.method = Method.HEAD)
    (hp : req.path = "/" ∨ req.path = "/health") :
    (handle req).status = 405 := by
  rw [handle_core req, hm]
  rcases hp with hp | hp <;> rw [hp] <;> decide

/-- Witness for C10 (amended): the concrete request `HEAD /health` receives
HTTP 405. -/
theorem c10_head_405_witness :
    (handle { method := Method.HEAD, path := "/health", headers := [], queryParams := [], body := "" }).status = 405 :=
  c10_head_405 _ rfl (Or.inr rfl)

/-- Counterexample to claim C10 as stated: in this model `HEAD /` receives
HTTP 405, not HTTP 200. -/
theorem c10_counterexample :
    (handle { method := Method.HEAD, path := "/", headers := [], queryParams := [], body := "" }).status = 405 ∧
      ¬ (handle { method := Method.HEAD, path := "/", headers := [], queryParams := [], body := "" }).status = 200 := by
  decide
